import Mathlib

/-!
Verification of the lunchctl launch-agent library: a shallow embedding of
its descriptor model (src/agent.rs), command-formatting and status layer
(src/control.rs) and shell-execution primitive (src/os.rs), with theorems
checking the specification's claims against it.

Ambient process state (the HOME environment variable, the effective user
id, the external shell) is passed as explicit parameters; machine bytes
are Nat, exit codes Int, paths String.
-/

namespace Lunchctl

/-- The path to the null device (src/agent.rs, `DEV_NULL`). -/
def DEV_NULL : String := "/dev/null"

/-- Resource-scheduling class of a launch agent (src/agent.rs, `ProcessType`). -/
inductive ProcessType where
  | Background : ProcessType
  | Standard : ProcessType
  | Adaptive : ProcessType
  | Interactive : ProcessType
deriving DecidableEq, Repr

/-- Default scheduling class (src/agent.rs, `impl Default for ProcessType`). -/
def ProcessType.default : ProcessType := ProcessType.Standard

/-- Lowercase token emitted for each scheduling class
(src/agent.rs, `impl Serialize for ProcessType`). -/
def ProcessType.serialize : ProcessType → String
  | ProcessType.Background => "background"
  | ProcessType.Standard => "standard"
  | ProcessType.Adaptive => "adaptive"
  | ProcessType.Interactive => "interactive"

/-- Decoding of a scheduling-class token; any token outside the four
recognized values is a hard decode error
(src/agent.rs, `impl Deserialize for ProcessType`). -/
def ProcessType.deserialize (s : String) : Except String ProcessType :=
  if s = "background" then Except.ok ProcessType.Background
  else if s = "standard" then Except.ok ProcessType.Standard
  else if s = "adaptive" then Except.ok ProcessType.Adaptive
  else if s = "interactive" then Except.ok ProcessType.Interactive
  else Except.error "invalid process type"

/-- Launch Agent descriptor (src/agent.rs, `struct LaunchAgent`).
Paths (`PathBuf`) are modelled as strings. -/
structure LaunchAgent where
  label : String
  program_arguments : List String
  standard_out_path : String
  standard_error_path : String
  keep_alive : Bool
  run_at_load : Bool
  process_type : ProcessType
deriving DecidableEq, Repr

/-- Direct constructor (src/agent.rs, `LaunchAgent::new`). -/
def LaunchAgent.new (label : String) : LaunchAgent :=
  { label := label
    program_arguments := []
    standard_out_path := DEV_NULL
    standard_error_path := DEV_NULL
    keep_alive := false
    run_at_load := false
    process_type := ProcessType.default }

/-- Outcome of a computation that may panic: `path_for` calls
`std::env::var("HOME").unwrap()`, which panics when the variable is absent
or not Unicode. -/
inductive PanicOr (α : Type) where
  | panic : PanicOr α
  | ok : α → PanicOr α
deriving DecidableEq, Repr

/-- Whether a Unix path is absolute: its first byte is the separator. -/
def isAbsolutePath (q : String) : Bool :=
  match q.data with
  | [] => false
  | c :: _ => c = '/'

/-- Whether a path's last byte is the separator. -/
def endsWithSep (p : String) : Bool :=
  match p.data.getLast? with
  | none => false
  | some c => c = '/'

/-- `PathBuf::join` on Unix (`PathBuf::push` on the joined component): an
absolute argument replaces the whole path; otherwise the argument is
appended, preceded by a separator when the current path is non-empty and
does not already end with one. -/
def pathJoin (p q : String) : String :=
  if isAbsolutePath q then q
  else if p.data = [] then q
  else if endsWithSep p then p ++ q
  else p ++ "/" ++ q

/-- The join chain of `LaunchAgent::path_for`:
`PathBuf::from(home).join("Library").join("LaunchAgents").join(label ++ ".plist")`. -/
def joined_path (home label : String) : String :=
  pathJoin (pathJoin (pathJoin home "Library") "LaunchAgents") (label ++ ".plist")

/-- Resolution of the on-disk descriptor path for a label
(src/agent.rs, `LaunchAgent::path_for`). `home` is the value of the HOME
environment variable, `none` when unset or unreadable; `.unwrap()` on a
missing value is a panic, not an error return. -/
def path_for (home : Option String) (label : String) : PanicOr String :=
  match home with
  | none => PanicOr.panic
  | some h => PanicOr.ok (joined_path h label)

/-- Path of a descriptor's configuration file (src/agent.rs, `LaunchAgent::path`). -/
def LaunchAgent.path (a : LaunchAgent) (home : Option String) : PanicOr String :=
  path_for home a.label

/-! Plist-level serialization. The derived `Serialize`/`Deserialize`
implementations (serde with `rename_all = "PascalCase"`) map a descriptor
to and from a structured key/value record; `PlistValue` is the fragment of
the plist data model the descriptor uses. -/

/-- Values of the structured markup format the descriptor serializes to. -/
inductive PlistValue where
  | string : String → PlistValue
  | boolean : Bool → PlistValue
  | array : List PlistValue → PlistValue
  | dict : List (String × PlistValue) → PlistValue

/-- Serialized form of a descriptor: the PascalCase-keyed record emitted by
the derived `Serialize` implementation (src/agent.rs, `#[serde(rename_all = "PascalCase")]`
on `struct LaunchAgent`). -/
def LaunchAgent.to_plist (a : LaunchAgent) : PlistValue :=
  PlistValue.dict
    [("Label", PlistValue.string a.label),
     ("ProgramArguments", PlistValue.array (a.program_arguments.map PlistValue.string)),
     ("StandardOutPath", PlistValue.string a.standard_out_path),
     ("StandardErrorPath", PlistValue.string a.standard_error_path),
     ("KeepAlive", PlistValue.boolean a.keep_alive),
     ("RunAtLoad", PlistValue.boolean a.run_at_load),
     ("ProcessType", PlistValue.string a.process_type.serialize)]

/-- First value stored under a key of a record. -/
def lookupKey : List (String × PlistValue) → String → Option PlistValue
  | [], _ => none
  | (k, v) :: rest, key => if k = key then some v else lookupKey rest key

/-- Required string field of a record. -/
def getString (es : List (String × PlistValue)) (k : String) : Except String String :=
  match lookupKey es k with
  | some (PlistValue.string s) => Except.ok s
  | some _ => Except.error "expected a string value"
  | none => Except.error "missing field"

/-- Required boolean field of a record. -/
def getBool (es : List (String × PlistValue)) (k : String) : Except String Bool :=
  match lookupKey es k with
  | some (PlistValue.boolean b) => Except.ok b
  | some _ => Except.error "expected a boolean value"
  | none => Except.error "missing field"

/-- Decoding of an array of strings. -/
def stringList : List PlistValue → Except String (List String)
  | [] => Except.ok []
  | PlistValue.string s :: rest =>
    match stringList rest with
    | Except.ok l => Except.ok (s :: l)
    | Except.error m => Except.error m
  | _ :: _ => Except.error "expected a string value"

/-- Required string-array field of a record. -/
def getStringList (es : List (String × PlistValue)) (k : String) :
    Except String (List String) :=
  match lookupKey es k with
  | some (PlistValue.array xs) => stringList xs
  | some _ => Except.error "expected an array value"
  | none => Except.error "missing field"

/-- Deserialization of a descriptor from its serialized record, as the
derived `Deserialize` implementation reads it: every field is required, the
scheduling-class value is read as a string and then decoded by
`ProcessType.deserialize`; any failure is a decode (format) error. -/
def LaunchAgent.from_plist (v : PlistValue) : Except String LaunchAgent :=
  match v with
  | PlistValue.dict es =>
    match getString es "Label" with
    | Except.error m => Except.error m
    | Except.ok label =>
      match getStringList es "ProgramArguments" with
      | Except.error m => Except.error m
      | Except.ok args =>
        match getString es "StandardOutPath" with
        | Except.error m => Except.error m
        | Except.ok outPath =>
          match getString es "StandardErrorPath" with
          | Except.error m => Except.error m
          | Except.ok errPath =>
            match getBool es "KeepAlive" with
            | Except.error m => Except.error m
            | Except.ok ka =>
              match getBool es "RunAtLoad" with
              | Except.error m => Except.error m
              | Except.ok ral =>
                match getString es "ProcessType" with
                | Except.error m => Except.error m
                | Except.ok token =>
                  match ProcessType.deserialize token with
                  | Except.error m => Except.error m
                  | Except.ok pt =>
                    Except.ok
                      { label := label
                        program_arguments := args
                        standard_out_path := outPath
                        standard_error_path := errPath
                        keep_alive := ka
                        run_at_load := ral
                        process_type := pt }
  | _ => Except.error "expected a dictionary"

/-! Builder (src/agent.rs, `#[derive(Builder)]` on `LaunchAgent`). The
derive_builder crate generates a struct of optional fields, one setter per
field (`arg` appends a single program argument), and a `build` method that
fails when a field without a default was never set and fills the declared
defaults otherwise. -/

/-- Generated builder: every descriptor field, optional. -/
structure LaunchAgentBuilder where
  label : Option String
  program_arguments : Option (List String)
  standard_out_path : Option String
  standard_error_path : Option String
  keep_alive : Option Bool
  run_at_load : Option Bool
  process_type : Option ProcessType
deriving DecidableEq, Repr

/-- Fresh builder with no field set (`LaunchAgentBuilder::default()`). -/
def LaunchAgentBuilder.empty : LaunchAgentBuilder :=
  { label := none
    program_arguments := none
    standard_out_path := none
    standard_error_path := none
    keep_alive := none
    run_at_load := none
    process_type := none }

/-- Label setter of the builder. -/
def LaunchAgentBuilder.withLabel (b : LaunchAgentBuilder) (l : String) :
    LaunchAgentBuilder :=
  { b with label := some l }

/-- Per-item setter for program arguments
(src/agent.rs, `#[builder(default, setter(each = "arg"))]`). -/
def LaunchAgentBuilder.arg (b : LaunchAgentBuilder) (a : String) : LaunchAgentBuilder :=
  { b with program_arguments := some (b.program_arguments.getD [] ++ [a]) }

/-- Error of builder finalization: a required field (one with no declared
default, here only `label`) was never supplied. -/
inductive LaunchAgentBuilderError where
  | UninitializedField : String → LaunchAgentBuilderError
deriving DecidableEq, Repr

/-- Builder finalization: fails when `label` was never set, and fills the
defaults declared in src/agent.rs for every other unset field (empty
argument list, the null device for both output paths, false flags,
`ProcessType::default()`). -/
def LaunchAgentBuilder.build (b : LaunchAgentBuilder) :
    Except LaunchAgentBuilderError LaunchAgent :=
  match b.label with
  | none => Except.error (LaunchAgentBuilderError.UninitializedField "label")
  | some l =>
    Except.ok
      { label := l
        program_arguments := b.program_arguments.getD []
        standard_out_path := b.standard_out_path.getD DEV_NULL
        standard_error_path := b.standard_error_path.getD DEV_NULL
        keep_alive := b.keep_alive.getD false
        run_at_load := b.run_at_load.getD false
        process_type := b.process_type.getD ProcessType.default }

/-! Shell execution (src/os.rs). A spawned process's captured output and a
spawn error are explicit data; the external shell is a parameter mapping a
command string to either. -/

/-- Captured output of a spawned process: exit status and the raw bytes of
the standard output and standard error streams. -/
structure ProcOutput where
  status : Int
  stdout : List Nat
  stderr : List Nat
deriving DecidableEq, Repr

/-- Failure to spawn the process: the OS error code when there is one, and
the error's display text. -/
structure SpawnError where
  raw_os_error : Option Int
  message : String
deriving DecidableEq, Repr

/-- Error type of the library (src/lib.rs, `enum LaunchAgentError`). -/
inductive LaunchAgentError where
  | PListError : String → LaunchAgentError
  | WriteError : String → LaunchAgentError
  | CommandFailed : Int → String → LaunchAgentError
deriving DecidableEq, Repr

/-- Unicode replacement character U+FFFD, emitted by lossy UTF-8 decoding
for each invalid byte sequence. -/
def replacementChar : Char := Char.ofNat 0xFFFD

/-- Whether a byte is a UTF-8 continuation byte (10xxxxxx). -/
def isCont (b : Nat) : Bool := 0x80 ≤ b && b ≤ 0xBF

/-- Valid second byte of a three-byte UTF-8 sequence headed by `b`. -/
def cont3First (b b2 : Nat) : Bool :=
  if b = 0xE0 then 0xA0 ≤ b2 && b2 ≤ 0xBF
  else if b = 0xED then 0x80 ≤ b2 && b2 ≤ 0x9F
  else isCont b2

/-- Valid second byte of a four-byte UTF-8 sequence headed by `b`. -/
def cont4First (b b2 : Nat) : Bool :=
  if b = 0xF0 then 0x90 ≤ b2 && b2 ≤ 0xBF
  else if b = 0xF4 then 0x80 ≤ b2 && b2 ≤ 0x8F
  else isCont b2

/-- Decoding of the first UTF-8 sequence of `b :: rest`: the decoded
character, U+FFFD when the sequence headed by `b` is invalid or truncated,
and the bytes past the consumed maximal subpart. -/
def utf8Step (b : Nat) (rest : List Nat) : Char × List Nat :=
  if b ≤ 0x7F then (Char.ofNat b, rest)
  else if 0xC2 ≤ b && b ≤ 0xDF then
    match rest with
    | [] => (replacementChar, [])
    | b2 :: rest2 =>
      if isCont b2 then (Char.ofNat ((b - 0xC0) * 0x40 + (b2 - 0x80)), rest2)
      else (replacementChar, b2 :: rest2)
  else if 0xE0 ≤ b && b ≤ 0xEF then
    match rest with
    | [] => (replacementChar, [])
    | b2 :: rest2 =>
      if cont3First b b2 then
        match rest2 with
        | [] => (replacementChar, [])
        | b3 :: rest3 =>
          if isCont b3 then
            (Char.ofNat ((b - 0xE0) * 0x1000 + (b2 - 0x80) * 0x40 + (b3 - 0x80)), rest3)
          else (replacementChar, b3 :: rest3)
      else (replacementChar, b2 :: rest2)
  else if 0xF0 ≤ b && b ≤ 0xF4 then
    match rest with
    | [] => (replacementChar, [])
    | b2 :: rest2 =>
      if cont4First b b2 then
        match rest2 with
        | [] => (replacementChar, [])
        | b3 :: rest3 =>
          if isCont b3 then
            match rest3 with
            | [] => (replacementChar, [])
            | b4 :: rest4 =>
              if isCont b4 then
                (Char.ofNat
                    ((b - 0xF0) * 0x40000 + (b2 - 0x80) * 0x1000 +
                      (b3 - 0x80) * 0x40 + (b4 - 0x80)),
                  rest4)
              else (replacementChar, b4 :: rest4)
          else (replacementChar, b3 :: rest3)
      else (replacementChar, b2 :: rest2)
  else (replacementChar, rest)

/-- One decoding step never lengthens the remaining input. -/
theorem utf8Step_length (b : Nat) (rest : List Nat) :
    (utf8Step b rest).2.length ≤ rest.length := by
  unfold utf8Step
  repeat' split
  all_goals simp_all
  all_goals omega

/-- Lossy UTF-8 decoding of a byte sequence (`String::from_utf8_lossy`):
a total function, decoding valid sequences and emitting U+FFFD for each
maximal invalid subpart, so decoding never fails. -/
def utf8LossyChars : List Nat → List Char
  | [] => []
  | b :: rest => (utf8Step b rest).1 :: utf8LossyChars (utf8Step b rest).2
termination_by l => l.length
decreasing_by
  simp only [List.length_cons]
  exact Nat.lt_succ_of_le (utf8Step_length _ _)

/-- Execution of a shell command (src/os.rs, `run_shell`): a spawn failure
is mapped to `CommandFailed` carrying the OS error code (1 when absent)
and the error's display text; a spawned process's captured standard output
is returned lossily decoded, whatever the exit status. -/
def run_shell (shell : String → Except SpawnError ProcOutput) (command : String) :
    Except LaunchAgentError String :=
  match shell command with
  | Except.error e =>
    Except.error (LaunchAgentError.CommandFailed (e.raw_os_error.getD 1) e.message)
  | Except.ok o => Except.ok (String.mk (utf8LossyChars o.stdout))

/-! Command formatting and lifecycle operations (src/control.rs). `uid` is
the effective user id (`get_user_id`), `home` the resolved HOME value used
by `self.path()`. -/

/-- Formatting of a launchctl command (src/control.rs, `format_command`):
empty command kinds format to the empty string, otherwise
`launchctl <command> gui/<uid> '<path>'`. -/
def format_command (a : LaunchAgent) (uid : Nat) (home : String) (command : String) :
    String :=
  if command = "" then ""
  else
    "launchctl " ++ command ++ " gui/" ++ toString uid ++ " '" ++
      joined_path home a.label ++ "'"

/-- Bootstrap command (src/control.rs, `format_bootstrap_command`). -/
def format_bootstrap_command (a : LaunchAgent) (uid : Nat) (home : String) : String :=
  format_command a uid home "bootstrap"

/-- Boot-out command (src/control.rs, `format_boot_out_command`). -/
def format_boot_out_command (a : LaunchAgent) (uid : Nat) (home : String) : String :=
  format_command a uid home "bootout"

/-- Status-query command (src/control.rs, `format_print_command`). -/
def format_print_command (a : LaunchAgent) (uid : Nat) : String :=
  "launchctl print gui/" ++ toString uid ++ "/" ++ a.label

/-- Running-state classifier (src/control.rs, `check_is_running`): a
substring test for the literal text "state = running". -/
def check_is_running (output : String) : Bool :=
  decide (String.toList "state = running" <:+: String.toList output)

/-- Activation (src/control.rs, `bootstrap`): runs the bootstrap command
and drops the captured output. -/
def bootstrap (a : LaunchAgent) (uid : Nat) (home : String)
    (shell : String → Except SpawnError ProcOutput) : Except LaunchAgentError Unit :=
  Except.map (fun _ => ()) (run_shell shell (format_bootstrap_command a uid home))

/-- Deactivation (src/control.rs, `boot_out`): runs the boot-out command
and drops the captured output. -/
def boot_out (a : LaunchAgent) (uid : Nat) (home : String)
    (shell : String → Except SpawnError ProcOutput) : Except LaunchAgentError Unit :=
  Except.map (fun _ => ()) (run_shell shell (format_boot_out_command a uid home))

/-- Status query (src/control.rs, `is_running`): runs the print command and
classifies its captured standard output. -/
def is_running (a : LaunchAgent) (uid : Nat)
    (shell : String → Except SpawnError ProcOutput) : Except LaunchAgentError Bool :=
  match run_shell shell (format_print_command a uid) with
  | Except.error e => Except.error e
  | Except.ok out => Except.ok (check_is_running out)

end Lunchctl

namespace Lunchctl

/-- Decoding the elementwise-serialized form of a string list recovers the
list. -/
theorem stringList_map_string (l : List String) :
    stringList (l.map PlistValue.string) = Except.ok l := by
  induction l with
  | nil => rfl
  | cons a t ih => simp [stringList, ih]

/-- C3: serializing any descriptor to its plist record and then
deserializing the result yields a descriptor equal to the original, for
every combination of field values and each of the four scheduling-class
variants. -/
theorem to_plist_from_plist_roundtrip (a : LaunchAgent) :
    LaunchAgent.from_plist (LaunchAgent.to_plist a) = Except.ok a := by
  obtain ⟨l, args, o, e, k, r, pt⟩ := a
  have h := stringList_map_string args
  cases pt <;>
    simp [LaunchAgent.to_plist, LaunchAgent.from_plist, getString, getBool,
      getStringList, lookupKey, h, ProcessType.serialize, ProcessType.deserialize]

/-- C3 witness: the round trip evaluated on one concrete descriptor. -/
theorem to_plist_from_plist_roundtrip_witness :
    LaunchAgent.from_plist
        (LaunchAgent.to_plist
          { label := "co.myrt.ajam"
            program_arguments := ["ajam", "run"]
            standard_out_path := "/dev/null"
            standard_error_path := "/dev/null"
            keep_alive := true
            run_at_load := true
            process_type := ProcessType.Adaptive }) =
      Except.ok
        { label := "co.myrt.ajam"
          program_arguments := ["ajam", "run"]
          standard_out_path := "/dev/null"
          standard_error_path := "/dev/null"
          keep_alive := true
          run_at_load := true
          process_type := ProcessType.Adaptive } :=
  to_plist_from_plist_roundtrip _

/-- C4: command formatting is exact for label "test", uid 501 and home
directory /Users/x: the three command kinds produce exactly the documented
strings, and an empty command kind formats to the empty string. -/
theorem format_command_exact :
    format_bootstrap_command (LaunchAgent.new "test") 501 "/Users/x" =
      "launchctl bootstrap gui/501 '/Users/x/Library/LaunchAgents/test.plist'" ∧
    format_boot_out_command (LaunchAgent.new "test") 501 "/Users/x" =
      "launchctl bootout gui/501 '/Users/x/Library/LaunchAgents/test.plist'" ∧
    format_print_command (LaunchAgent.new "test") 501 =
      "launchctl print gui/501/test" ∧
    format_command (LaunchAgent.new "test") 501 "/Users/x" "" = "" :=
  ⟨rfl, rfl, rfl, rfl⟩

/-- C5: the running-state classifier answers true exactly when its input
contains the literal substring "state = running"; in particular a status
output carrying only an asid line classifies as not running. -/
theorem check_is_running_iff_contains :
    (∀ output : String, check_is_running output = true ↔
        String.toList "state = running" <:+: String.toList output) ∧
    check_is_running "\n    domain = gui/501 [100003]\n    asid = 100003\n" = false := by
  constructor
  · intro output
    simp [check_is_running]
  · decide

/-- Appending strings appends their character data. -/
theorem data_append (p q : String) : (p ++ q).data = p.data ++ q.data := by
  cases p
  cases q
  rfl

/-- Strings with equal character data are equal. -/
theorem string_data_eq (p q : String) (h : p.data = q.data) : p = q := by
  cases p
  cases q
  exact congrArg String.mk h

/-- Appending a non-empty string keeps the data non-empty. -/
theorem data_ne_nil_append (p q : String) (hq : q.data ≠ []) : (p ++ q).data ≠ [] := by
  intro h
  rw [data_append] at h
  exact hq (List.append_eq_nil.mp h).2

/-- The last byte of an append with a non-empty right part is the right
part's last byte. -/
theorem endsWithSep_append (p q : String) (hq : q.data ≠ []) :
    endsWithSep (p ++ q) = endsWithSep q := by
  unfold endsWithSep
  rw [data_append, List.getLast?_append_of_ne_nil _ hq]

/-- Joining a relative component onto a non-empty path without a trailing
separator inserts the separator. -/
theorem pathJoin_rel (p q : String) (habs : isAbsolutePath q = false)
    (hp : p.data ≠ []) (hsep : endsWithSep p = false) :
    pathJoin p q = p ++ "/" ++ q := by
  simp [pathJoin, habs, hp, hsep]

/-- Joining an absolute component replaces the whole path. -/
theorem pathJoin_abs (p q : String) (habs : isAbsolutePath q = true) :
    pathJoin p q = q := by
  simp [pathJoin, habs]

/-- C6 counterexample: at the path-hostile label "/x" the file name
"/x.plist" is absolute, so `PathBuf::join` replaces the whole path and
resolution yields "/x.plist", not the claimed home-rooted location. -/
theorem path_for_absolute_label_escapes :
    path_for (some "/Users/x") "/x" = PanicOr.ok "/x.plist" ∧
    path_for (some "/Users/x") "/x" ≠
      PanicOr.ok ("/Users/x" ++ "/Library/LaunchAgents/" ++ "/x" ++ ".plist") := by
  constructor
  · rfl
  · decide

/-- C6 (amended): for every non-empty home directory without a trailing
separator and every label whose file name `<label>.plist` is not an
absolute path, the resolved descriptor path equals
`<home>/Library/LaunchAgents/<label>.plist`; when `<label>.plist` is
absolute, join replaces the whole path and resolution yields `<label>.plist`
itself. In every case two descriptors with the same label resolve to the
same path. -/
theorem path_for_formula_benign (home label : String) (hh : home ≠ "")
    (hsep : endsWithSep home = false)
    (hl : isAbsolutePath (label ++ ".plist") = false) :
    path_for (some home) label =
      PanicOr.ok (home ++ "/Library/LaunchAgents/" ++ label ++ ".plist") ∧
    (∀ (h2 : Option String) (a b : LaunchAgent), a.label = b.label →
        a.path h2 = b.path h2) ∧
    (∀ lbl : String, isAbsolutePath (lbl ++ ".plist") = true →
        path_for (some home) lbl = PanicOr.ok (lbl ++ ".plist")) := by
  refine ⟨?_, ?_, ?_⟩
  · have hd : home.data ≠ [] := fun h0 => hh (string_data_eq home "" h0)
    have hL : ("Library" : String).data ≠ [] := by decide
    have hLA : ("LaunchAgents" : String).data ≠ [] := by decide
    have a1 : isAbsolutePath "Library" = false := by decide
    have a2 : isAbsolutePath "LaunchAgents" = false := by decide
    have j1 : pathJoin home "Library" = home ++ "/" ++ "Library" :=
      pathJoin_rel _ _ a1 hd hsep
    have d1 : (home ++ "/" ++ "Library").data ≠ [] := data_ne_nil_append _ _ hL
    have s1 : endsWithSep (home ++ "/" ++ "Library") = false := by
      rw [endsWithSep_append _ _ hL]
      decide
    have j2 : pathJoin (home ++ "/" ++ "Library") "LaunchAgents" =
        home ++ "/" ++ "Library" ++ "/" ++ "LaunchAgents" :=
      pathJoin_rel _ _ a2 d1 s1
    have d2 : (home ++ "/" ++ "Library" ++ "/" ++ "LaunchAgents").data ≠ [] :=
      data_ne_nil_append _ _ hLA
    have s2 : endsWithSep (home ++ "/" ++ "Library" ++ "/" ++ "LaunchAgents") = false := by
      rw [endsWithSep_append _ _ hLA]
      decide
    have j3 : pathJoin (home ++ "/" ++ "Library" ++ "/" ++ "LaunchAgents")
        (label ++ ".plist") =
        home ++ "/" ++ "Library" ++ "/" ++ "LaunchAgents" ++ "/" ++ (label ++ ".plist") :=
      pathJoin_rel _ _ hl d2 s2
    show PanicOr.ok (pathJoin (pathJoin (pathJoin home "Library") "LaunchAgents")
        (label ++ ".plist")) =
      PanicOr.ok (home ++ "/Library/LaunchAgents/" ++ label ++ ".plist")
    rw [j1, j2, j3]
    refine congrArg PanicOr.ok ?_
    refine string_data_eq _ _ ?_
    simp only [data_append, List.append_assoc]
    simp
  · intro h2 a b h
    simp [LaunchAgent.path, h]
  · intro lbl habs
    show PanicOr.ok (pathJoin (pathJoin (pathJoin home "Library") "LaunchAgents")
        (lbl ++ ".plist")) = PanicOr.ok (lbl ++ ".plist")
    exact congrArg PanicOr.ok (pathJoin_abs _ _ habs)

/-- C6 witness: the amended formula evaluated at home "/Users/x" and label
"test". -/
theorem path_for_formula_benign_witness :
    path_for (some "/Users/x") "test" =
      PanicOr.ok "/Users/x/Library/LaunchAgents/test.plist" :=
  (path_for_formula_benign "/Users/x" "test" (by decide) (by decide) (by decide)).1

/-- C8: finalizing the builder without a label fails with the
missing-required-field error for "label"; with only a label set it succeeds
and yields every documented default (no arguments, null-device output
paths, both flags false, Standard scheduling class). -/
theorem builder_finalization_defaults :
    LaunchAgentBuilder.build LaunchAgentBuilder.empty =
      Except.error (LaunchAgentBuilderError.UninitializedField "label") ∧
    (∀ label : String,
        LaunchAgentBuilder.build
            (LaunchAgentBuilder.withLabel LaunchAgentBuilder.empty label) =
          Except.ok
            { label := label
              program_arguments := []
              standard_out_path := "/dev/null"
              standard_error_path := "/dev/null"
              keep_alive := false
              run_at_load := false
              process_type := ProcessType.Standard }) :=
  ⟨rfl, fun _ => rfl⟩

/-- C9: for every label, the direct constructor produces exactly the
descriptor that finalizing the builder with only that label produces. -/
theorem new_eq_builder_with_only_label (label : String) :
    Except.ok (LaunchAgent.new label) =
      LaunchAgentBuilder.build (LaunchAgentBuilder.withLabel LaunchAgentBuilder.empty label) :=
  rfl

end Lunchctl

namespace Lunchctl

/-- C1 counterexample: a spawned bootstrap invocation that exits with the
non-zero status 1 is reported as success, because `run_shell` never
inspects the exit status of a process it managed to spawn. -/
theorem bootstrap_nonzero_exit_reported_ok :
    bootstrap (LaunchAgent.new "test") 501 "/Users/x"
        (fun _ => Except.ok (ProcOutput.mk 1 [] [])) = Except.ok () :=
  rfl

/-- C1 (amended): the lifecycle operations fail with `CommandFailed`
(carrying the spawn error's OS error code, 1 when absent, and its display
text) exactly when the external invocation cannot be spawned; once the
process spawns, its exit status is ignored and the operation succeeds. -/
theorem lifecycle_error_iff_spawn_failure (a : LaunchAgent) (uid : Nat) (home : String)
    (shell : String → Except SpawnError ProcOutput) :
    (∀ o, shell (format_bootstrap_command a uid home) = Except.ok o →
        bootstrap a uid home shell = Except.ok ()) ∧
    (∀ err, shell (format_bootstrap_command a uid home) = Except.error err →
        bootstrap a uid home shell =
          Except.error
            (LaunchAgentError.CommandFailed (err.raw_os_error.getD 1) err.message)) ∧
    (∀ o, shell (format_boot_out_command a uid home) = Except.ok o →
        boot_out a uid home shell = Except.ok ()) ∧
    (∀ err, shell (format_boot_out_command a uid home) = Except.error err →
        boot_out a uid home shell =
          Except.error
            (LaunchAgentError.CommandFailed (err.raw_os_error.getD 1) err.message)) ∧
    (∀ o, shell (format_print_command a uid) = Except.ok o →
        is_running a uid shell =
          Except.ok (check_is_running (String.mk (utf8LossyChars o.stdout)))) ∧
    (∀ err, shell (format_print_command a uid) = Except.error err →
        is_running a uid shell =
          Except.error
            (LaunchAgentError.CommandFailed (err.raw_os_error.getD 1) err.message)) := by
  refine ⟨?_, ?_, ?_, ?_, ?_, ?_⟩ <;> intro x h <;>
    simp [bootstrap, boot_out, is_running, run_shell, Except.map, h]

/-- C2 counterexample: with the home environment value unset, path
resolution panics (`.unwrap()` on the missing value); it does not return
an environment error — the library's error type has no such variant. -/
theorem path_for_home_unset_panics :
    path_for none "test" = PanicOr.panic :=
  rfl

/-- C2 (amended): path resolution panics when the home environment value is
unset or unreadable — the crate's error type has no environment-error
variant — and whenever the value is present it always succeeds, returning a
resolved path and never an error value. -/
theorem path_for_panic_or_success :
    (∀ label : String, path_for none label = PanicOr.panic) ∧
    (∀ home label : String, ∃ p : String,
        path_for (some home) label = PanicOr.ok p) :=
  ⟨fun _ => rfl, fun home label => ⟨joined_path home label, rfl⟩⟩

/-- C7: a scheduling-class token outside the four recognized values makes
both the token decoder and whole-record deserialization fail with the hard
decode error, and no token other than "standard" ever decodes to the
Standard class. -/
theorem process_type_unknown_token_hard_error (s : String)
    (hb : s ≠ "background") (hs : s ≠ "standard") (ha : s ≠ "adaptive")
    (hi : s ≠ "interactive") :
    ProcessType.deserialize s = Except.error "invalid process type" ∧
    LaunchAgent.from_plist
        (PlistValue.dict
          [("Label", PlistValue.string "test"),
           ("ProgramArguments", PlistValue.array []),
           ("StandardOutPath", PlistValue.string "/dev/null"),
           ("StandardErrorPath", PlistValue.string "/dev/null"),
           ("KeepAlive", PlistValue.boolean false),
           ("RunAtLoad", PlistValue.boolean false),
           ("ProcessType", PlistValue.string s)]) =
      Except.error "invalid process type" ∧
    (∀ t : String, ProcessType.deserialize t = Except.ok ProcessType.Standard →
        t = "standard") := by
  refine ⟨?_, ?_, ?_⟩
  · simp [ProcessType.deserialize, hb, hs, ha, hi]
  · simp [LaunchAgent.from_plist, getString, getBool, getStringList, lookupKey,
      stringList, ProcessType.deserialize, hb, hs, ha, hi]
  · intro t ht
    by_cases h1 : t = "background"
    · simp [ProcessType.deserialize, h1] at ht
    · by_cases h2 : t = "standard"
      · exact h2
      · by_cases h3 : t = "adaptive"
        · simp [ProcessType.deserialize, h1, h2, h3] at ht
        · by_cases h4 : t = "interactive"
          · simp [ProcessType.deserialize, h1, h2, h3, h4] at ht
          · simp [ProcessType.deserialize, h1, h2, h3, h4] at ht

/-- C7 witness: the hard decode error at the concrete token "garbage". -/
theorem process_type_unknown_token_hard_error_witness :
    ProcessType.deserialize "garbage" = Except.error "invalid process type" :=
  (process_type_unknown_token_hard_error "garbage" (by decide) (by decide)
    (by decide) (by decide)).1

/-- C10: the status query classifies only the captured standard-output
bytes, decoded by the total lossy UTF-8 conversion: for every exit status
and both output streams the result is a success, a function of the decoded
standard output alone; in particular invalid UTF-8 on standard output
never makes the query fail, and a standard-error stream spelling out
"state = running" is ignored. -/
theorem is_running_lossy_stdout_only :
    (∀ (a : LaunchAgent) (uid : Nat) (status : Int) (stdout stderr : List Nat),
        is_running a uid (fun _ => Except.ok (ProcOutput.mk status stdout stderr)) =
          Except.ok (check_is_running (String.mk (utf8LossyChars stdout)))) ∧
    is_running (LaunchAgent.new "test") 501
        (fun _ => Except.ok (ProcOutput.mk 0 [0xFF, 0x61]
          [0x73, 0x74, 0x61, 0x74, 0x65, 0x20, 0x3D, 0x20,
           0x72, 0x75, 0x6E, 0x6E, 0x69, 0x6E, 0x67])) =
      Except.ok false := by
  constructor
  · intro a uid status stdout stderr
    rfl
  · show Except.ok (check_is_running (String.mk (utf8LossyChars [0xFF, 0x61]))) =
      Except.ok false
    have hd : utf8LossyChars [0xFF, 0x61] = [replacementChar, Char.ofNat 0x61] := by
      simp [utf8LossyChars, utf8Step]
    rw [hd]
    exact congrArg Except.ok (by decide)

end Lunchctl
